import Mathlib

/-!
Verification development for the bandmate-mcp server (`src/index.ts`, with the
duplicated variant in `src/unnamed/part_001`).

The server is a thin protocol adapter: MCP tool invocations are translated into
HTTP requests against a fixed backend, and responses are wrapped as tool
results.  We embed the request-construction logic, the response handling of
`apiRequest`, the local `search_songs` filter, and the `/mcp` session state
machine, and prove the claimed properties about them.

Modelling conventions:
  * JSON values are the inductive `JVal`; a JS object is an association list of
    fields in insertion order (later `obj.k = v` assignments on a fresh key
    append a field, which is how the handlers build their bodies).
  * JS truthiness tests (`if (x)`) on optional string parameters are
    `strOptTruthy` (absent or empty string is falsy); on numbers, zero is
    falsy; arrays and objects are always truthy.
  * `String.prototype.toLowerCase` is modelled as character-wise ASCII
    lowercasing (`jsToLower`); all inputs in the claims are ASCII.
  * `String.prototype.includes` is the substring (list-infix) test
    `strIncludes`.
  * `URLSearchParams` / manual `?k=v` query building is modelled structurally:
    a request carries its query as a list of key/value pairs.
  * The `Map` of streamable transports is an association list from session id
    to an abstract transport id (`Nat`); `Map.set` / `Map.delete` are modelled
    up to entry order, which the program never observes (it only uses
    `has`/`get`/`delete`).
-/

namespace Bandmate

/-- JSON-like values exchanged with the backend.  Objects are association
lists in key insertion order. -/
inductive JVal where
  | null
  | bool (b : Bool)
  | num (n : Int)
  | str (s : String)
  | arr (elems : List JVal)
  | obj (fields : List (String × JVal))

/-- JavaScript truthiness of a JSON value. -/
def jsTruthy : JVal → Bool
  | .null => false
  | .bool b => b
  | .num n => n != 0
  | .str s => s != ""
  | .arr _ => true
  | .obj _ => true

/-- Property access `v.k` on a JSON value: defined on objects, `undefined`
(here `none`) otherwise. -/
def jGet (v : JVal) (k : String) : Option JVal :=
  match v with
  | .obj fields => fields.lookup k
  | _ => none

/-- The field list of a JSON object (`[]` on non-objects). -/
def objFields : JVal → List (String × JVal)
  | .obj fields => fields
  | _ => []

/-- `String.prototype.toLowerCase`, restricted to ASCII case folding. -/
def jsToLower (s : String) : String := String.mk (s.data.map Char.toLower)

/-- `hay.includes(needle)`: substring test. -/
def strIncludes (hay needle : String) : Bool := decide (needle.data <:+: hay.data)

/-- JS truthiness of an optional string parameter: returns the value exactly
when it is present and non-empty (`if (x)` on a `string | undefined`). -/
def strOptTruthy : Option String → Option String
  | some s => if s = "" then none else some s
  | none => none

/-- Environment-derived configuration: `BANDMATE_API_URL` and
`BANDMATE_AUTH_TOKEN` (the latter defaults to the empty string). -/
structure Config where
  apiBaseUrl : String
  authToken : String
deriving DecidableEq

/-- An endpoint as built by a tool handler: path plus structured query. -/
structure Endpoint where
  path : String
  query : List (String × String)
deriving DecidableEq

/-- An outbound HTTP request as assembled by `apiRequest`.  `body` is the JSON
value serialized into the request body (absent unless the method carries
one). -/
structure HttpRequest where
  baseUrl : String
  path : String
  query : List (String × String)
  method : String
  headers : List (String × String)
  body : Option JVal

/-- A backend HTTP response: status, parsed JSON body, and raw body text. -/
structure HttpResponse where
  status : Nat
  bodyJson : JVal
  bodyText : String

/-- Validated parameters of the `upsert_song` tool, in declaration order.
`isPublic` has a schema default, so it is always present after validation. -/
structure UpsertSongParams where
  id : Option String
  title : String
  chordsText : String
  isPublic : Bool
  bpm : Option Int
  key : Option String
  voice : Option String
  tags : Option (List String)
  spotifyUrl : Option String
  youtubeUrl : Option String
  userId : Option String
deriving DecidableEq

/-- Validated parameters of the `upsert_list` tool. -/
structure UpsertListParams where
  id : Option String
  name : Option String
  isPrivate : Bool
  songs : Option (List String)
  userId : Option String
deriving DecidableEq

/-- One invocation of an exposed tool with its validated parameter record.
Both source variants register exactly these eleven tools. -/
inductive ToolCall where
  | get_songs (userId ids : Option String)
  | get_song (id : String)
  | get_songs_by_user (userId : String)
  | get_songs_in_list (listId : String)
  | upsert_song (p : UpsertSongParams)
  | get_lists (userId : Option String)
  | get_list (id : String)
  | upsert_list (p : UpsertListParams)
  | get_artists
  | upsert_artist (name : String)
  | search_songs (query : String) (userId : Option String)
deriving DecidableEq

namespace V1

/-- `apiRequest` from `src/index.ts` lines 15-38: assembles the single fetch
request.  The `Content-Type` header is always set; the `Authorization` header
is added exactly when `requiresAuth && AUTH_TOKEN` holds; the body is attached
only for POST/PUT/PATCH and only when truthy. -/
def apiRequest (cfg : Config) (ep : Endpoint) (method : String)
    (body : Option JVal) (requiresAuth : Bool) : HttpRequest :=
  let headers := [("Content-Type", "application/json")]
  let headers :=
    if requiresAuth && !(cfg.authToken == "") then
      headers ++ [("Authorization", "Bearer " ++ cfg.authToken)]
    else headers
  let sentBody :=
    match body with
    | some b =>
      if jsTruthy b && (method == "POST" || method == "PUT" || method == "PATCH") then
        some b
      else none
    | none => none
  { baseUrl := cfg.apiBaseUrl, path := ep.path, query := ep.query,
    method := method, headers := headers, body := sentBody }

/-- `apiRequest` response handling, lines 40-45: `response.ok` (status in
200..299) returns the parsed JSON; otherwise the call throws an error whose
message carries the status and the response body text. -/
def apiResponse (resp : HttpResponse) : Except String JVal :=
  if 200 ≤ resp.status ∧ resp.status < 300 then
    Except.ok resp.bodyJson
  else
    Except.error ("API request failed: " ++ toString resp.status ++ " - " ++ resp.bodyText)

/-- Full semantics of one `apiRequest` call against a given backend response:
the list of HTTP requests it issues (always the single fetch — there is no
retry loop) paired with its outcome. -/
def apiCall (cfg : Config) (ep : Endpoint) (method : String) (body : Option JVal)
    (requiresAuth : Bool) (resp : HttpResponse) : List HttpRequest × Except String JVal :=
  ([apiRequest cfg ep method body requiresAuth], apiResponse resp)

/-- Query construction of the `get_songs` handler, lines 64-77: `ids` is
appended when truthy, else `userId` when truthy, else nothing. -/
def getSongsQuery (userId ids : Option String) : List (String × String) :=
  match strOptTruthy ids with
  | some i => [("ids", i)]
  | none =>
    match strOptTruthy userId with
    | some u => [("userId", u)]
    | none => []

/-- Query construction of the `get_lists` and `search_songs` handlers:
`?userId=...` is appended exactly when `userId` is truthy. -/
def userQuery (userId : Option String) : List (String × String) :=
  match strOptTruthy userId with
  | some u => [("userId", u)]
  | none => []

/-- A conditional string field assignment `if (v) obj.k = v`. -/
def optStrField (k : String) (v : Option String) : List (String × JVal) :=
  match strOptTruthy v with
  | some s => [(k, JVal.str s)]
  | none => []

/-- The `details` sub-object built by the `upsert_song` handler, lines
158-160: each of `bpm`, `key`, `voice` is assigned only when truthy. -/
def upsertSongDetails (p : UpsertSongParams) : List (String × JVal) :=
  (match p.bpm with
   | some b => if b = 0 then [] else [("bpm", JVal.num b)]
   | none => [])
  ++ optStrField "key" p.key
  ++ optStrField "voice" p.voice

/-- The outbound body of `upsert_song`, lines 149-163: the object literal
followed by the conditional assignments, in execution order. -/
def upsertSongBody (p : UpsertSongParams) : JVal :=
  JVal.obj
    ([("title", JVal.str p.title),
      ("chords-text", JVal.str p.chordsText),
      ("public", JVal.bool p.isPublic),
      ("details", JVal.obj (upsertSongDetails p)),
      ("tags", JVal.arr ((p.tags.getD []).map JVal.str))]
     ++ optStrField "id" p.id
     ++ optStrField "spotifyUrl" p.spotifyUrl
     ++ optStrField "youtubeUrl" p.youtubeUrl
     ++ optStrField "user_id" p.userId)

/-- The outbound body of `upsert_list`, lines 221-228.  `songs` is an array,
hence truthy whenever present (even when empty). -/
def upsertListBody (p : UpsertListParams) : JVal :=
  JVal.obj
    ([("private", JVal.bool p.isPrivate)]
     ++ optStrField "id" p.id
     ++ optStrField "name" p.name
     ++ (match p.songs with
         | some ss => [("songs", JVal.arr (ss.map JVal.str))]
         | none => [])
     ++ optStrField "user_uid" p.userId)

/-- The HTTP request constructed by each tool handler of `src/index.ts`. -/
def toolRequest (cfg : Config) (c : ToolCall) : HttpRequest :=
  match c with
  | .get_songs userId ids => apiRequest cfg ⟨"/songs", getSongsQuery userId ids⟩ "GET" none false
  | .get_song id => apiRequest cfg ⟨"/songs/" ++ id, []⟩ "GET" none false
  | .get_songs_by_user userId => apiRequest cfg ⟨"/songs/user/" ++ userId, []⟩ "GET" none false
  | .get_songs_in_list listId => apiRequest cfg ⟨"/songs/list/" ++ listId, []⟩ "GET" none false
  | .upsert_song p => apiRequest cfg ⟨"/songs", []⟩ "POST" (some (upsertSongBody p)) false
  | .get_lists userId => apiRequest cfg ⟨"/lists", userQuery userId⟩ "GET" none false
  | .get_list id => apiRequest cfg ⟨"/lists/" ++ id, []⟩ "GET" none false
  | .upsert_list p => apiRequest cfg ⟨"/lists", []⟩ "POST" (some (upsertListBody p)) true
  | .get_artists => apiRequest cfg ⟨"/artists", []⟩ "GET" none false
  | .upsert_artist name =>
    apiRequest cfg ⟨"/artists", []⟩ "POST" (some (JVal.obj [("name", JVal.str name)])) false
  | .search_songs _ userId => apiRequest cfg ⟨"/songs", userQuery userId⟩ "GET" none false

/-- The per-song predicate of the `search_songs` handler, lines 289-293: the
lowercased query must occur in the lowercased title or in some lowercased tag.
Fields are read per the handler's declared response type
(`{title?: string; tags?: string[]}`); a missing field never matches. -/
def songMatches (queryLower : String) (song : JVal) : Bool :=
  let titleMatch :=
    match jGet song "title" with
    | some (JVal.str t) => strIncludes (jsToLower t) queryLower
    | _ => false
  let tagsMatch :=
    match jGet song "tags" with
    | some (JVal.arr tags) =>
      tags.any fun tag =>
        match tag with
        | JVal.str s => strIncludes (jsToLower s) queryLower
        | _ => false
    | _ => false
  titleMatch || tagsMatch

/-- The local filter of `search_songs`: `songs.filter(...)` with the query
lowercased once. -/
def searchSongsFilter (query : String) (songs : List JVal) : List JVal :=
  songs.filter (songMatches (jsToLower query))

/-- Response handling of `search_songs`, lines 284-296: take `result.body`
when truthy else `result` itself, then filter; `.filter` on a non-array is a
runtime failure (`none`). -/
def searchResponse (query : String) (result : JVal) : Option JVal :=
  let songs :=
    match jGet result "body" with
    | some b => if jsTruthy b then b else result
    | none => result
  match songs with
  | JVal.arr xs => some (JVal.arr (searchSongsFilter query xs))
  | _ => none

/-- The JSON value each tool serializes into its single text content block
(`JSON.stringify(·, null, 2)`), as a function of the backend response.  Every
tool except `search_songs` returns the response verbatim. -/
def toolResponseJson (c : ToolCall) (result : JVal) : Option JVal :=
  match c with
  | .search_songs query _ => searchResponse query result
  | _ => some result

end V1

/-! ### `/mcp` session state machine (`src/index.ts` lines 310, 335-363)

The streamable session table is a `Map` from session id to transport; we
model it as an association list from session id to an abstract transport
identifier.  The request handler itself never mutates the table: insertions
happen only in the `onsessioninitialized` callback and deletions only in the
`onclose` callback, which we model as separate events. -/

/-- `Map.delete`, up to entry order (unobservable: only `has`/`get`/`delete`
are used on the table). -/
def mapDelete (s : String) (table : List (String × Nat)) : List (String × Nat) :=
  table.filter fun e => e.1 ≠ s

/-- `Map.set`, up to entry order. -/
def mapSet (s : String) (tid : Nat) (table : List (String × Nat)) : List (String × Nat) :=
  (s, tid) :: mapDelete s table

/-- The action the `/mcp` route takes on one inbound request. -/
inductive McpAction where
  | route (tid : Nat)
  | createTransport
  | reject400
deriving DecidableEq

/-- The `/mcp` route's dispatch, lines 335-360: a truthy session id known to
the table routes to its transport; a falsy session id on a POST creates a
fresh transport; everything else is rejected with HTTP 400.  The session id
is the `mcp-session-id` header value; an empty header value is falsy in JS. -/
def handleMcp (table : List (String × Nat)) (sessionId : Option String)
    (method : String) : McpAction :=
  match sessionId with
  | some s =>
    if s = "" then
      if method = "POST" then McpAction.createTransport else McpAction.reject400
    else
      match table.lookup s with
      | some tid => McpAction.route tid
      | none => McpAction.reject400
  | none => if method = "POST" then McpAction.createTransport else McpAction.reject400

/-- Events that touch the streamable session table. -/
inductive SessionEvent where
  | request (sessionId : Option String) (method : String)
  | sessionInitialized (tid : Nat) (sessionId : String)
  | transportClosed (tid : Nat) (sessionId : Option String)
deriving DecidableEq

/-- Effect of each event on the session table: requests never mutate it; the
`onsessioninitialized` callback (line 345) registers the entry; the `onclose`
callback (line 350) deletes the entry keyed by the transport's session id,
when that id is truthy. -/
def sessionStep (table : List (String × Nat)) : SessionEvent → List (String × Nat)
  | .request _ _ => table
  | .sessionInitialized tid s => mapSet s tid table
  | .transportClosed _ sid =>
    match strOptTruthy sid with
    | some s => mapDelete s table
    | none => table

/-! ### The duplicated variant `src/unnamed/part_001`

`part_001` registers the same eleven tools via `server.registerTool` with the
identical handler bodies (lines 55-307) and the identical `apiRequest`
(lines 14-45).  We embed it separately so the tool-level equivalence claim is
about two independently translated definitions. -/

namespace V2

/-- `apiRequest` from `src/unnamed/part_001` lines 14-37. -/
def apiRequest (cfg : Config) (ep : Endpoint) (method : String)
    (body : Option JVal) (requiresAuth : Bool) : HttpRequest :=
  let headers := [("Content-Type", "application/json")]
  let headers :=
    if requiresAuth && !(cfg.authToken == "") then
      headers ++ [("Authorization", "Bearer " ++ cfg.authToken)]
    else headers
  let sentBody :=
    match body with
    | some b =>
      if jsTruthy b && (method == "POST" || method == "PUT" || method == "PATCH") then
        some b
      else none
    | none => none
  { baseUrl := cfg.apiBaseUrl, path := ep.path, query := ep.query,
    method := method, headers := headers, body := sentBody }

/-- `apiRequest` response handling from `part_001` lines 39-44. -/
def apiResponse (resp : HttpResponse) : Except String JVal :=
  if 200 ≤ resp.status ∧ resp.status < 300 then
    Except.ok resp.bodyJson
  else
    Except.error ("API request failed: " ++ toString resp.status ++ " - " ++ resp.bodyText)

/-- `get_songs` query construction, `part_001` lines 64-77. -/
def getSongsQuery (userId ids : Option String) : List (String × String) :=
  match strOptTruthy ids with
  | some i => [("ids", i)]
  | none =>
    match strOptTruthy userId with
    | some u => [("userId", u)]
    | none => []

/-- `?userId=` query of `get_lists` / `search_songs`, `part_001`. -/
def userQuery (userId : Option String) : List (String × String) :=
  match strOptTruthy userId with
  | some u => [("userId", u)]
  | none => []

/-- A conditional string field assignment `if (v) obj.k = v`. -/
def optStrField (k : String) (v : Option String) : List (String × JVal) :=
  match strOptTruthy v with
  | some s => [(k, JVal.str s)]
  | none => []

/-- `details` sub-object of `upsert_song`, `part_001` lines 162-164. -/
def upsertSongDetails (p : UpsertSongParams) : List (String × JVal) :=
  (match p.bpm with
   | some b => if b = 0 then [] else [("bpm", JVal.num b)]
   | none => [])
  ++ optStrField "key" p.key
  ++ optStrField "voice" p.voice

/-- Outbound body of `upsert_song`, `part_001` lines 153-167. -/
def upsertSongBody (p : UpsertSongParams) : JVal :=
  JVal.obj
    ([("title", JVal.str p.title),
      ("chords-text", JVal.str p.chordsText),
      ("public", JVal.bool p.isPublic),
      ("details", JVal.obj (upsertSongDetails p)),
      ("tags", JVal.arr ((p.tags.getD []).map JVal.str))]
     ++ optStrField "id" p.id
     ++ optStrField "spotifyUrl" p.spotifyUrl
     ++ optStrField "youtubeUrl" p.youtubeUrl
     ++ optStrField "user_id" p.userId)

/-- Outbound body of `upsert_list`, `part_001` lines 228-235. -/
def upsertListBody (p : UpsertListParams) : JVal :=
  JVal.obj
    ([("private", JVal.bool p.isPrivate)]
     ++ optStrField "id" p.id
     ++ optStrField "name" p.name
     ++ (match p.songs with
         | some ss => [("songs", JVal.arr (ss.map JVal.str))]
         | none => [])
     ++ optStrField "user_uid" p.userId)

/-- The HTTP request constructed by each tool handler of `part_001`. -/
def toolRequest (cfg : Config) (c : ToolCall) : HttpRequest :=
  match c with
  | .get_songs userId ids => apiRequest cfg ⟨"/songs", getSongsQuery userId ids⟩ "GET" none false
  | .get_song id => apiRequest cfg ⟨"/songs/" ++ id, []⟩ "GET" none false
  | .get_songs_by_user userId => apiRequest cfg ⟨"/songs/user/" ++ userId, []⟩ "GET" none false
  | .get_songs_in_list listId => apiRequest cfg ⟨"/songs/list/" ++ listId, []⟩ "GET" none false
  | .upsert_song p => apiRequest cfg ⟨"/songs", []⟩ "POST" (some (upsertSongBody p)) false
  | .get_lists userId => apiRequest cfg ⟨"/lists", userQuery userId⟩ "GET" none false
  | .get_list id => apiRequest cfg ⟨"/lists/" ++ id, []⟩ "GET" none false
  | .upsert_list p => apiRequest cfg ⟨"/lists", []⟩ "POST" (some (upsertListBody p)) true
  | .get_artists => apiRequest cfg ⟨"/artists", []⟩ "GET" none false
  | .upsert_artist name =>
    apiRequest cfg ⟨"/artists", []⟩ "POST" (some (JVal.obj [("name", JVal.str name)])) false
  | .search_songs _ userId => apiRequest cfg ⟨"/songs", userQuery userId⟩ "GET" none false

/-- Per-song predicate of `search_songs`, `part_001` lines 296-301. -/
def songMatches (queryLower : String) (song : JVal) : Bool :=
  let titleMatch :=
    match jGet song "title" with
    | some (JVal.str t) => strIncludes (jsToLower t) queryLower
    | _ => false
  let tagsMatch :=
    match jGet song "tags" with
    | some (JVal.arr tags) =>
      tags.any fun tag =>
        match tag with
        | JVal.str s => strIncludes (jsToLower s) queryLower
        | _ => false
    | _ => false
  titleMatch || tagsMatch

/-- Local filter of `search_songs`, `part_001`. -/
def searchSongsFilter (query : String) (songs : List JVal) : List JVal :=
  songs.filter (songMatches (jsToLower query))

/-- Response handling of `search_songs`, `part_001` lines 293-301. -/
def searchResponse (query : String) (result : JVal) : Option JVal :=
  let songs :=
    match jGet result "body" with
    | some b => if jsTruthy b then b else result
    | none => result
  match songs with
  | JVal.arr xs => some (JVal.arr (searchSongsFilter query xs))
  | _ => none

/-- The JSON value each `part_001` tool serializes into its text block. -/
def toolResponseJson (c : ToolCall) (result : JVal) : Option JVal :=
  match c with
  | .search_songs query _ => searchResponse query result
  | _ => some result

end V2

/-- The match predicate as the specification states it: the lowercased query
is a substring of the lowercased title, or of the lowercased form of at least
one (string) tag. -/
def matchesQuery (query : String) (song : JVal) : Prop :=
  (∃ t, jGet song "title" = some (JVal.str t) ∧
      (jsToLower query).data <:+: (jsToLower t).data)
  ∨ (∃ tags, jGet song "tags" = some (JVal.arr tags) ∧
      ∃ s, JVal.str s ∈ tags ∧ (jsToLower query).data <:+: (jsToLower s).data)

/-- The spec's fixed example collection for `search_songs`. -/
def exampleSongs : List JVal :=
  [JVal.obj [("title", JVal.str "Foobar"), ("tags", JVal.arr [])],
   JVal.obj [("title", JVal.str "Baz"), ("tags", JVal.arr [JVal.str "foo-rock"])],
   JVal.obj [("title", JVal.str "Qux"), ("tags", JVal.arr [])]]

/-! ### Theorems -/

/-- The handler's boolean match agrees with the specification's predicate. -/
theorem songMatches_eq_true_iff (query : String) (song : JVal) :
    V1.songMatches (jsToLower query) song = true ↔ matchesQuery query song := by
  simp only [V1.songMatches, matchesQuery, Bool.or_eq_true]
  apply or_congr
  · cases htitle : jGet song "title" with
    | none => simp
    | some v =>
      cases v with
      | null => simp
      | bool b => simp
      | num n => simp
      | str t => simp [strIncludes]
      | arr xs => simp
      | obj fs => simp
  · cases htags : jGet song "tags" with
    | none => simp
    | some v =>
      cases v with
      | null => simp
      | bool b => simp
      | num n => simp
      | str t => simp
      | obj fs => simp
      | arr tags =>
        simp only [List.any_eq_true, Option.some.injEq, JVal.arr.injEq,
          exists_eq_left']
        constructor
        · rintro ⟨tag, htag, hf⟩
          cases tag with
          | str s => exact ⟨s, htag, by simpa [strIncludes] using hf⟩
          | null => simp at hf
          | bool b => simp at hf
          | num n => simp at hf
          | arr xs => simp at hf
          | obj fs => simp at hf
        · rintro ⟨s, hmem, hinf⟩
          exact ⟨JVal.str s, hmem, by simp [strIncludes, hinf]⟩

/-- Claim C5: `search_songs` returns exactly the songs of the fetched
collection whose lowercased title, or some lowercased tag, contains the
lowercased query, preserving collection order; the result is invariant under
changing the case of the query; on the spec's fixed example, `"foo"` (and
`"FOO"`) return exactly the first two entries. -/
theorem c5_search_songs (query : String) (songs : List JVal) :
    (V1.searchSongsFilter query songs).Sublist songs
    ∧ V1.searchSongsFilter query songs =
        songs.filter (V1.songMatches (jsToLower query))
    ∧ (∀ song, song ∈ V1.searchSongsFilter query songs ↔
        song ∈ songs ∧ matchesQuery query song)
    ∧ (∀ query2, jsToLower query2 = jsToLower query →
        V1.searchSongsFilter query2 songs = V1.searchSongsFilter query songs)
    ∧ V1.searchSongsFilter "foo" exampleSongs = exampleSongs.take 2
    ∧ V1.searchSongsFilter "FOO" exampleSongs = exampleSongs.take 2 := by
  refine ⟨List.filter_sublist _, rfl, ?_, ?_, rfl, rfl⟩
  · intro song
    rw [V1.searchSongsFilter, List.mem_filter, songMatches_eq_true_iff]
  · intro query2 h
    simp only [V1.searchSongsFilter, h]

/-- Claim C5, witness: the query `"FOO"` gives the same result as `"foo"`. -/
theorem c5_search_songs_witness :
    V1.searchSongsFilter "FOO" exampleSongs = V1.searchSongsFilter "foo" exampleSongs :=
  (c5_search_songs "foo" exampleSongs).2.2.2.1 "FOO" (by decide)

/-- Lookup after a `Map.delete`. -/
theorem lookup_mapDelete (s k : String) (t : List (String × Nat)) :
    (mapDelete s t).lookup k = if k = s then none else t.lookup k := by
  induction t with
  | nil => simp [mapDelete]
  | cons a t ih =>
    obtain ⟨a1, a2⟩ := a
    simp only [mapDelete, List.filter_cons, decide_not] at ih ⊢
    by_cases ha : a1 = s
    · subst ha
      rw [if_neg (by simp), ih]
      by_cases hk : k = a1
      · simp [hk]
      · simp [hk, List.lookup_cons, beq_false_of_ne hk]
    · rw [if_pos (by simp [ha])]
      by_cases hk : k = a1
      · subst hk
        simp [List.lookup_cons, ha]
      · simp [List.lookup_cons, beq_false_of_ne hk, ih]

/-- Lookup after a `Map.set`. -/
theorem lookup_mapSet (s k : String) (tid : Nat) (t : List (String × Nat)) :
    (mapSet s tid t).lookup k = if k = s then some tid else t.lookup k := by
  by_cases hk : k = s
  · simp [mapSet, hk, List.lookup_cons]
  · simp [mapSet, List.lookup_cons, beq_false_of_ne hk, lookup_mapDelete, hk]

/-- Claim C6, counterexample: a POST carrying the `mcp-session-id` header
with the empty-string value — an identifier not present in the (empty)
session table — is not rejected with 400: the empty string is falsy in JS,
so the request is handled as an initialization request and a transport is
created. -/
theorem c6_counterexample :
    handleMcp [] (some "") "POST" = McpAction.createTransport
    ∧ McpAction.createTransport ≠ McpAction.reject400 :=
  ⟨rfl, by decide⟩

/-- Claim C6, amended: a request carrying a non-empty session id absent from
the table, or carrying a missing-or-empty session id with a non-POST method,
is rejected with HTTP 400; request handling never mutates the session
table (so no session entry is created). -/
theorem c6_mcp_reject (table : List (String × Nat)) (sid : Option String)
    (method : String) :
    (∀ s, sid = some s → s ≠ "" → table.lookup s = none →
        handleMcp table sid method = McpAction.reject400)
    ∧ ((sid = none ∨ sid = some "") → method ≠ "POST" →
        handleMcp table sid method = McpAction.reject400)
    ∧ sessionStep table (SessionEvent.request sid method) = table := by
  refine ⟨?_, ?_, rfl⟩
  · rintro s rfl hs hlook
    simp [handleMcp, hs, hlook]
  · rintro (rfl | rfl) hm <;> simp [handleMcp, hm]

/-- Claim C6, witness: an unknown non-empty session id, and a session-less
GET, are both rejected. -/
theorem c6_mcp_reject_witness :
    handleMcp [("a1b2", 7)] (some "zzzz") "POST" = McpAction.reject400
    ∧ handleMcp [("a1b2", 7)] none "GET" = McpAction.reject400 :=
  ⟨(c6_mcp_reject [("a1b2", 7)] (some "zzzz") "POST").1 "zzzz" rfl (by decide) (by decide),
   (c6_mcp_reject [("a1b2", 7)] none "GET").2.1 (Or.inl rfl) (by decide)⟩

/-- Claim C7: session-table lifecycle.  (1) an entry for a session id can
appear only through the `onsessioninitialized` event — request handling and
closures never add entries; (2) when a transport carrying a session id
signals closure, the entry under that id is removed; (3) a subsequent
request presenting the removed id is treated as unknown and rejected with
400. -/
theorem c7_session_lifecycle (table : List (String × Nat)) (e : SessionEvent)
    (tid : Nat) (s : String) (method : String) :
    (∀ k, (sessionStep table e).lookup k ≠ none →
        table.lookup k ≠ none ∨ ∃ t2, e = SessionEvent.sessionInitialized t2 k)
    ∧ (s ≠ "" →
        (sessionStep table (SessionEvent.transportClosed tid (some s))).lookup s = none)
    ∧ (s ≠ "" →
        handleMcp (sessionStep table (SessionEvent.transportClosed tid (some s)))
          (some s) method = McpAction.reject400) := by
  refine ⟨?_, fun hs => ?_, fun hs => ?_⟩
  · intro k hk
    cases e with
    | request sid m => exact Or.inl hk
    | sessionInitialized t2 s2 =>
      by_cases hks : k = s2
      · exact Or.inr ⟨t2, by rw [hks]⟩
      · refine Or.inl ?_
        simpa [sessionStep, lookup_mapSet, hks] using hk
    | transportClosed t2 sid =>
      refine Or.inl ?_
      cases sid with
      | none => simpa [sessionStep, strOptTruthy] using hk
      | some s2 =>
        by_cases h2 : s2 = ""
        · simpa [sessionStep, strOptTruthy, h2] using hk
        · by_cases hks : k = s2
          · simp [sessionStep, strOptTruthy, h2, lookup_mapDelete, hks] at hk
          · simpa [sessionStep, strOptTruthy, h2, lookup_mapDelete, hks] using hk
  · simp [sessionStep, strOptTruthy, hs, lookup_mapDelete]
  · have hdel : (sessionStep table (SessionEvent.transportClosed tid (some s))).lookup s
        = none := by
      simp [sessionStep, strOptTruthy, hs, lookup_mapDelete]
    simp [handleMcp, hs, hdel]

/-- Claim C7, witness: after closing the transport of session `sid9`, the
entry is gone and a request presenting `sid9` is rejected; on a routed
request, an entry can only pre-exist. -/
theorem c7_session_lifecycle_witness :
    (List.lookup "sid9" [("sid9", 3)] ≠ none ∨
      ∃ t2, SessionEvent.request (some "sid9") "GET" = SessionEvent.sessionInitialized t2 "sid9")
    ∧ (sessionStep [("sid9", 3)] (SessionEvent.transportClosed 3 (some "sid9"))).lookup "sid9" = none
    ∧ handleMcp (sessionStep [("sid9", 3)] (SessionEvent.transportClosed 3 (some "sid9")))
        (some "sid9") "GET" = McpAction.reject400 :=
  ⟨(c7_session_lifecycle [("sid9", 3)] (SessionEvent.request (some "sid9") "GET")
      3 "sid9" "GET").1 "sid9" (by decide),
   (c7_session_lifecycle [("sid9", 3)] (SessionEvent.transportClosed 3 (some "sid9"))
      3 "sid9" "GET").2.1 (by decide),
   (c7_session_lifecycle [("sid9", 3)] (SessionEvent.transportClosed 3 (some "sid9"))
      3 "sid9" "GET").2.2 (by decide)⟩

/-- Claim C10: the two source variants are tool-level equivalent: for every
tool invocation they construct the same HTTP request, serialize the same
JSON value into the tool result for the same backend response, and handle
HTTP statuses identically. -/
theorem c10_variant_equivalence (cfg : Config) (c : ToolCall) :
    V1.toolRequest cfg c = V2.toolRequest cfg c
    ∧ (∀ result, V1.toolResponseJson c result = V2.toolResponseJson c result)
    ∧ (∀ resp, V1.apiResponse resp = V2.apiResponse resp) := by
  refine ⟨?_, fun result => ?_, fun resp => rfl⟩
  · cases c <;> rfl
  · cases c <;> rfl

/-- Claim C2: the `Authorization` header is sent, with value
`Bearer <token>`, exactly when `requiresAuth` is true and the configured token
is non-empty; in every other case no `Authorization` header is present.  In
particular `upsert_list` issues a POST to `/lists` whose `Authorization`
header is present iff the token is non-empty. -/
theorem c2_authorization_header (cfg : Config) (ep : Endpoint) (method : String)
    (body : Option JVal) (requiresAuth : Bool) (p : UpsertListParams) :
    ((V1.apiRequest cfg ep method body requiresAuth).headers.lookup "Authorization" =
      if requiresAuth = true ∧ cfg.authToken ≠ "" then some ("Bearer " ++ cfg.authToken)
      else none)
    ∧ (V1.toolRequest cfg (ToolCall.upsert_list p)).method = "POST"
    ∧ (V1.toolRequest cfg (ToolCall.upsert_list p)).path = "/lists"
    ∧ ((V1.toolRequest cfg (ToolCall.upsert_list p)).headers.lookup "Authorization" =
      if cfg.authToken ≠ "" then some ("Bearer " ++ cfg.authToken) else none) := by
  refine ⟨?_, rfl, rfl, ?_⟩
  · by_cases h : cfg.authToken = "" <;>
      cases requiresAuth <;>
        simp [V1.apiRequest, h, List.lookup]
  · by_cases h : cfg.authToken = "" <;>
      simp [V1.toolRequest, V1.apiRequest, h, List.lookup]

/-- Claim C3: `get_songs` always targets `/songs`; when both `ids` and
`userId` are supplied non-empty the query holds only `ids`; when only
`userId` is supplied non-empty the query holds only `userId`; when neither is
supplied the query is empty. -/
theorem c3_get_songs_query (cfg : Config) (userId ids : Option String) :
    (V1.toolRequest cfg (ToolCall.get_songs userId ids)).path = "/songs"
    ∧ (∀ i u, ids = some i → i ≠ "" → userId = some u → u ≠ "" →
        (V1.toolRequest cfg (ToolCall.get_songs userId ids)).query = [("ids", i)])
    ∧ (∀ u, ids = none → userId = some u → u ≠ "" →
        (V1.toolRequest cfg (ToolCall.get_songs userId ids)).query = [("userId", u)])
    ∧ (ids = none → userId = none →
        (V1.toolRequest cfg (ToolCall.get_songs userId ids)).query = []) := by
  refine ⟨rfl, ?_, ?_, ?_⟩
  · rintro i u rfl hi rfl hu
    simp [V1.toolRequest, V1.apiRequest, V1.getSongsQuery, strOptTruthy, hi]
  · rintro u rfl rfl hu
    simp [V1.toolRequest, V1.apiRequest, V1.getSongsQuery, strOptTruthy, hu]
  · rintro rfl rfl
    simp [V1.toolRequest, V1.apiRequest, V1.getSongsQuery, strOptTruthy]

/-- Claim C3, witness. -/
theorem c3_get_songs_query_witness :
    (V1.toolRequest ⟨"b", ""⟩ (ToolCall.get_songs (some "u1") (some "s1,s2"))).query =
      [("ids", "s1,s2")] :=
  (c3_get_songs_query ⟨"b", ""⟩ (some "u1") (some "s1,s2")).2.1 "s1,s2" "u1"
    rfl (by decide) rfl (by decide)

/-- Claim C4: one `apiRequest` call issues exactly one HTTP request; on a
non-2xx status it fails with an error message that contains the status code
and the response body text; on a 2xx status it returns the parsed JSON
body. -/
theorem c4_api_response (cfg : Config) (ep : Endpoint) (method : String)
    (body : Option JVal) (requiresAuth : Bool) (resp : HttpResponse) :
    (V1.apiCall cfg ep method body requiresAuth resp).1 =
        [V1.apiRequest cfg ep method body requiresAuth]
    ∧ (¬(200 ≤ resp.status ∧ resp.status < 300) →
        (V1.apiCall cfg ep method body requiresAuth resp).2 =
          Except.error
            ("API request failed: " ++ toString resp.status ++ " - " ++ resp.bodyText)
        ∧ (toString resp.status).data <:+:
            ("API request failed: " ++ toString resp.status ++ " - " ++ resp.bodyText).data
        ∧ resp.bodyText.data <:+:
            ("API request failed: " ++ toString resp.status ++ " - " ++ resp.bodyText).data)
    ∧ ((200 ≤ resp.status ∧ resp.status < 300) →
        (V1.apiCall cfg ep method body requiresAuth resp).2 = Except.ok resp.bodyJson) := by
  refine ⟨rfl, fun h => ⟨?_, ?_, ?_⟩, fun h => ?_⟩
  · simp [V1.apiCall, V1.apiResponse, h]
  · exact ⟨"API request failed: ".data,
      (" - " ++ resp.bodyText).data, by simp [String.data_append, List.append_assoc]⟩
  · exact ⟨("API request failed: " ++ toString resp.status ++ " - ").data, [],
      by simp [String.data_append, List.append_assoc]⟩
  · simp [V1.apiCall, V1.apiResponse, h]

/-- Claim C4, witness: a 404 response yields the error with status and body
in the message, a 200 response yields the parsed body. -/
theorem c4_api_response_witness :
    ((V1.apiCall ⟨"b", ""⟩ ⟨"/songs", []⟩ "GET" none false ⟨404, JVal.null, "nope"⟩).2 =
        Except.error ("API request failed: " ++ toString 404 ++ " - " ++ "nope"))
    ∧ ((V1.apiCall ⟨"b", ""⟩ ⟨"/songs", []⟩ "GET" none false
          ⟨200, JVal.bool true, "ok"⟩).2 = Except.ok (JVal.bool true)) :=
  ⟨((c4_api_response ⟨"b", ""⟩ ⟨"/songs", []⟩ "GET" none false
      ⟨404, JVal.null, "nope"⟩).2.1 (by decide)).1,
    (c4_api_response ⟨"b", ""⟩ ⟨"/songs", []⟩ "GET" none false
      ⟨200, JVal.bool true, "ok"⟩).2.2 (by decide)⟩

/-- Membership in a conditional string field: the field is exactly `(k, s)`
for a present, non-empty value `s`. -/
theorem mem_optStrField (k : String) (v : Option String) (e : String × JVal) :
    e ∈ V1.optStrField k v ↔ ∃ s, v = some s ∧ s ≠ "" ∧ e = (k, JVal.str s) := by
  cases v with
  | none => simp [V1.optStrField, strOptTruthy]
  | some s =>
    by_cases h : s = ""
    · subst h; simp [V1.optStrField, strOptTruthy]
    · simp [V1.optStrField, strOptTruthy, h]

/-- Membership in the conditional `bpm` field of the `details` object. -/
theorem mem_bpmField (b0 : Option Int) (e : String × JVal) :
    e ∈ (match b0 with
         | some b => if b = 0 then [] else [("bpm", JVal.num b)]
         | none => ([] : List (String × JVal))) ↔
      ∃ b, b0 = some b ∧ b ≠ 0 ∧ e = ("bpm", JVal.num b) := by
  cases b0 with
  | none => simp
  | some b => by_cases h : b = 0 <;> simp [h]

/-- Claim C1, counterexample: `upsert_song` with `bpm` supplied as `0` (and
`key`, `voice` omitted) sends an empty `details` object, not one containing
the supplied `bpm` key — so it is not the case that exactly the supplied
subset of `bpm`/`key`/`voice` appears under `details`. -/
theorem c1_counterexample :
    (UpsertSongParams.bpm
        ⟨none, "T", "C", false, some 0, none, none, none, none, none, none⟩ = some 0)
    ∧ jGet
        (V1.upsertSongBody
          ⟨none, "T", "C", false, some 0, none, none, none, none, none, none⟩)
        "details" = some (JVal.obj [])
    ∧ jGet
        (V1.upsertSongBody
          ⟨none, "T", "C", false, some 0, none, none, none, none, none, none⟩)
        "details" ≠ some (JVal.obj [("bpm", JVal.num 0)]) := by
  refine ⟨rfl, rfl, fun h => ?_⟩
  have h0 : jGet
      (V1.upsertSongBody
        ⟨none, "T", "C", false, some 0, none, none, none, none, none, none⟩)
      "details" = some (JVal.obj []) := rfl
  rw [h0] at h
  simp at h

/-- Claim C1, amended: the outbound `upsert_song` body always carries a
`details` field holding exactly the conditional `bpm`/`key`/`voice` fields;
with all three omitted it is the empty object; a supplied value appears under
its key iff it is truthy (`bpm ≠ 0`, non-empty `key`/`voice`), and no other
key ever appears under `details`. -/
theorem c1_upsert_song_details (p : UpsertSongParams) :
    jGet (V1.upsertSongBody p) "details" = some (JVal.obj (V1.upsertSongDetails p))
    ∧ (p.bpm = none ∧ p.key = none ∧ p.voice = none → V1.upsertSongDetails p = [])
    ∧ (∀ b : Int, ("bpm", JVal.num b) ∈ V1.upsertSongDetails p ↔ p.bpm = some b ∧ b ≠ 0)
    ∧ (∀ k : String,
        ("key", JVal.str k) ∈ V1.upsertSongDetails p ↔ p.key = some k ∧ k ≠ "")
    ∧ (∀ v : String,
        ("voice", JVal.str v) ∈ V1.upsertSongDetails p ↔ p.voice = some v ∧ v ≠ "")
    ∧ (∀ e ∈ V1.upsertSongDetails p, e.1 = "bpm" ∨ e.1 = "key" ∨ e.1 = "voice") := by
  refine ⟨rfl, ?_, ?_, ?_, ?_, ?_⟩
  · rintro ⟨h1, h2, h3⟩
    simp [V1.upsertSongDetails, h1, h2, h3, V1.optStrField, strOptTruthy]
  · intro b
    simp [V1.upsertSongDetails, List.mem_append, mem_bpmField, mem_optStrField,
      Prod.mk.injEq, show ("bpm" : String) ≠ "key" by decide,
      show ("bpm" : String) ≠ "voice" by decide]
  · intro k
    simp [V1.upsertSongDetails, List.mem_append, mem_bpmField, mem_optStrField,
      Prod.mk.injEq, show ("key" : String) ≠ "bpm" by decide,
      show ("key" : String) ≠ "voice" by decide]
  · intro v
    simp [V1.upsertSongDetails, List.mem_append, mem_bpmField, mem_optStrField,
      Prod.mk.injEq, show ("voice" : String) ≠ "bpm" by decide,
      show ("voice" : String) ≠ "key" by decide]
  · intro e he
    simp [V1.upsertSongDetails, List.mem_append, mem_bpmField, mem_optStrField] at he
    rcases he with ⟨b, hb, hbne, rfl⟩ | ⟨s, hs, hsne, rfl⟩ | ⟨s, hs, hsne, rfl⟩ <;> simp

/-- Claim C1, witness: with all three omitted `details` is empty; with
`bpm = 120` supplied the `bpm` field appears. -/
theorem c1_upsert_song_details_witness :
    V1.upsertSongDetails ⟨none, "T", "C", false, none, none, none, none, none, none, none⟩ = []
    ∧ ("bpm", JVal.num 120) ∈
        V1.upsertSongDetails
          ⟨none, "T", "C", false, some 120, some "Am", none, none, none, none, none⟩ :=
  ⟨(c1_upsert_song_details
      ⟨none, "T", "C", false, none, none, none, none, none, none, none⟩).2.1
      ⟨rfl, rfl, rfl⟩,
    ((c1_upsert_song_details
      ⟨none, "T", "C", false, some 120, some "Am", none, none, none, none, none⟩).2.2.1
      120).mpr ⟨rfl, by decide⟩⟩

/-- Claim C8: `upsert_song` renames `chordsText` to `chords-text`, `isPublic`
to `public` and `userId` to `user_id`; `upsert_list` renames `isPrivate` to
`private` and `userId` to `user_uid`; the camelCase names never appear as
keys of the outbound bodies. -/
theorem c8_wire_renaming (pS : UpsertSongParams) (pL : UpsertListParams) :
    ("chords-text", JVal.str pS.chordsText) ∈ objFields (V1.upsertSongBody pS)
    ∧ ("public", JVal.bool pS.isPublic) ∈ objFields (V1.upsertSongBody pS)
    ∧ (∀ u, pS.userId = some u → u ≠ "" →
        ("user_id", JVal.str u) ∈ objFields (V1.upsertSongBody pS))
    ∧ (∀ e ∈ objFields (V1.upsertSongBody pS),
        e.1 ≠ "chordsText" ∧ e.1 ≠ "isPublic" ∧ e.1 ≠ "userId")
    ∧ ("private", JVal.bool pL.isPrivate) ∈ objFields (V1.upsertListBody pL)
    ∧ (∀ u, pL.userId = some u → u ≠ "" →
        ("user_uid", JVal.str u) ∈ objFields (V1.upsertListBody pL))
    ∧ (∀ e ∈ objFields (V1.upsertListBody pL),
        e.1 ≠ "isPrivate" ∧ e.1 ≠ "userId") := by
  refine ⟨?_, ?_, ?_, ?_, ?_, ?_, ?_⟩
  · simp [objFields, V1.upsertSongBody, List.mem_append]
  · simp [objFields, V1.upsertSongBody, List.mem_append]
  · intro u hu hne
    simp [objFields, V1.upsertSongBody, List.mem_append, mem_optStrField, hu, hne]
  · intro e he
    simp [objFields, V1.upsertSongBody, List.mem_append, mem_optStrField] at he
    rcases he with rfl | rfl | rfl | rfl | rfl | ⟨s, hs, hsne, rfl⟩ |
      ⟨s, hs, hsne, rfl⟩ | ⟨s, hs, hsne, rfl⟩ | ⟨s, hs, hsne, rfl⟩ <;> simp
  · simp [objFields, V1.upsertListBody, List.mem_append]
  · intro u hu hne
    simp [objFields, V1.upsertListBody, List.mem_append, mem_optStrField, hu, hne]
  · intro e he
    rcases hsongs : pL.songs with _ | ss
    · simp [objFields, V1.upsertListBody, List.mem_append, mem_optStrField, hsongs] at he
      rcases he with rfl | ⟨s, hs, hsne, rfl⟩ | ⟨s, hs, hsne, rfl⟩ |
        ⟨s, hs, hsne, rfl⟩ <;> simp
    · simp [objFields, V1.upsertListBody, List.mem_append, mem_optStrField, hsongs] at he
      rcases he with rfl | ⟨s, hs, hsne, rfl⟩ | ⟨s, hs, hsne, rfl⟩ | rfl |
        ⟨s, hs, hsne, rfl⟩ <;> simp

/-- Claim C8, witness: the renamed creator/owner keys appear for concrete
truthy values. -/
theorem c8_wire_renaming_witness :
    ("user_id", JVal.str "u7") ∈
        objFields (V1.upsertSongBody
          ⟨none, "T", "C", true, none, none, none, none, none, none, some "u7"⟩)
    ∧ ("user_uid", JVal.str "u7") ∈
        objFields (V1.upsertListBody ⟨none, none, false, none, some "u7"⟩) :=
  ⟨(c8_wire_renaming
      ⟨none, "T", "C", true, none, none, none, none, none, none, some "u7"⟩
      ⟨none, none, false, none, some "u7"⟩).2.2.1 "u7" rfl (by decide),
    (c8_wire_renaming
      ⟨none, "T", "C", true, none, none, none, none, none, none, some "u7"⟩
      ⟨none, none, false, none, some "u7"⟩).2.2.2.2.2.1 "u7" rfl (by decide)⟩

/-- Claim C9: for `upsert_song` and `upsert_list`, supplied optional
parameters with JavaScript-falsy values (`bpm = 0`, empty strings for `id`,
`key`, `voice`, `spotifyUrl`, `youtubeUrl`, `userId`, `name`) are omitted
from the outbound body. -/
theorem c9_falsy_omitted (title chordsText : String) (isPublic isPrivate : Bool) :
    V1.upsertSongBody
        ⟨some "", title, chordsText, isPublic, some 0, some "", some "", none,
          some "", some "", some ""⟩ =
      JVal.obj
        [("title", JVal.str title), ("chords-text", JVal.str chordsText),
          ("public", JVal.bool isPublic), ("details", JVal.obj []),
          ("tags", JVal.arr [])]
    ∧ V1.upsertListBody ⟨some "", some "", isPrivate, none, some ""⟩ =
        JVal.obj [("private", JVal.bool isPrivate)] :=
  ⟨rfl, rfl⟩

end Bandmate
